import Mathlib

/-!
Verification of the voice-agent frontend: the token-fetch hook
`useVoiceAgentConnection` (src/hooks/useVoiceAgentConnection.ts) and the
screen components `VoiceAssistantScreen` / `VoiceAssistantRoom`.

The TypeScript code is shallowly embedded: the asynchronous fetch workflow
becomes a pure function from the observable behaviour of the HTTP server
(status, body, thrown exceptions) to the hook's final state triple
`{details, isLoading, error}`; JSX rendering becomes functions into small
view datatypes; React's `useEffect` re-run rule is modelled explicitly for
the single-shot property.
-/

/-- `ConnectionDetails` from useVoiceAgentConnection.ts lines 6-10:
`{ url: string; token: string; roomName?: string }`. -/
structure ConnectionDetails where
  url : String
  token : String
  roomName : Option String
deriving DecidableEq, Repr

/-- The hook's returned state triple (line 12):
`{ details: ConnectionDetails | undefined; isLoading: boolean; error: string | null }`. -/
structure HookState where
  details : Option ConnectionDetails
  isLoading : Bool
  error : Option String
deriving DecidableEq, Repr

/-- A JavaScript thrown value as the catch block at lines 55-57 discriminates
it: either an `Error` instance carrying a `message` string, or any other
thrown value (string, object, ...), whose payload the code never reads. -/
inductive Thrown where
  | error (message : String)
  | nonError
deriving DecidableEq, Repr

/-- Outcome of `await response.json()` (line 46): either the parsed body with
the fields the code reads (`server_url`, `token`, optional `room_name`), or a
parse exception. -/
inductive BodyOutcome where
  | parseError (exn : Thrown)
  | parsed (server_url : String) (token : String) (room_name : Option String)
deriving DecidableEq, Repr

/-- Observable behaviour of one `fetch` call (line 30): the promise rejects
(network-level exception), or resolves to a response with a numeric status
and a body. -/
inductive FetchOutcome where
  | networkError (exn : Thrown)
  | response (status : Nat) (body : BodyOutcome)
deriving DecidableEq, Repr

/-- `Response.ok` (line 41): per the fetch standard, true iff the status is
in the inclusive range [200, 299]. -/
def responseOk (status : Nat) : Bool :=
  200 ≤ status && status ≤ 299

/-- The message of the `Error` thrown at line 42 on a non-ok response:
the template literal `HTTP error! status: ${response.status}`. -/
def httpErrorMessage (status : Nat) : String :=
  "HTTP error! status: " ++ toString status

/-- The `try` block of `fetchConnectionDetails` (lines 19-53), before the
`catch`: awaits the fetch, throws on `!response.ok`, awaits the JSON parse,
and maps `server_url → url`, `token → token`, `room_name → roomName`.
`Except.error` is a thrown exception reaching the `catch`. -/
def tryBlock (o : FetchOutcome) : Except Thrown ConnectionDetails :=
  match o with
  | .networkError exn => .error exn
  | .response status body =>
    if !responseOk status then
      .error (.error (httpErrorMessage status))
    else
      match body with
      | .parseError exn => .error exn
      | .parsed server_url token room_name =>
        .ok { url := server_url, token := token, roomName := room_name }

/-- The `catch` block's message (line 57):
`err instanceof Error ? err.message : 'Unknown error'`. -/
def caughtMessage : Thrown → String
  | .error message => message
  | .nonError => "Unknown error"

/-- The initial hook state (lines 13-15): `details = undefined`,
`isLoading = true`, `error = null`. -/
def initialHookState : HookState :=
  { details := none, isLoading := true, error := none }

/-- The complete `fetchConnectionDetails` workflow (lines 18-61) as a function
from the fetch's observable outcome to the hook state after the promise
settles: on normal completion `setDetails` stores the mapped details; in
`catch`, `setError` stores the string message; `finally` sets
`isLoading = false` on every path. -/
def fetchConnectionDetails (o : FetchOutcome) : HookState :=
  match tryBlock o with
  | .ok d => { details := some d, isLoading := false, error := none }
  | .error exn => { details := none, isLoading := false, error := some (caughtMessage exn) }

/-- What `VoiceAssistantScreen` renders (part_000 lines 44-64). -/
inductive ScreenView where
  | loading
  | room (serverUrl : String) (token : String)
deriving DecidableEq, Repr

/-- `VoiceAssistantScreen`'s render branch (part_000 lines 44-64):
`if (isLoading || !connectionDetails)` show the loading text, otherwise mount
`LiveKitRoom` with `serverUrl = connectionDetails.url`,
`token = connectionDetails.token` (`undefined` is falsy, so the guard is
`isLoading` or `details = none`). -/
def renderVoiceAssistantScreen (s : HookState) : ScreenView :=
  if s.isLoading then .loading
  else
    match s.details with
    | none => .loading
    | some d => .room d.url d.token

/-- The generated user id (line 36): the template literal
`user-${Date.now()}` where `Date.now()` is the observed millisecond
timestamp. -/
def userId (now : Nat) : String :=
  "user-" ++ toString now

/-- Modelled React `useEffect` semantics: an effect body runs once after the
mounting render, and again after a later render exactly when its dependency
array differs from the one it saw on the previous render. `deps i` is the
dependency array passed on render `i`; `rerenders` counts the re-renders
after the mount. -/
def effectRunCount (deps : Nat → List String) (rerenders : Nat) : Nat :=
  1 + (List.range rerenders).countP (fun i => decide (deps (i + 1) ≠ deps i))

/-- The dependency array the hook passes on every render (line 64): the empty
array `[]`. -/
def hookEffectDeps : Nat → List String :=
  fun _ => []

/-- Number of `fetch` requests issued by one run of the effect body
(lines 18-63): the body calls `fetchConnectionDetails()` once, which issues
one `fetch` (line 30) with no retry loop. -/
def fetchCallsPerEffectRun : Nat := 1

/-- Total `fetch` requests issued by one mount of the hook across `rerenders`
re-renders. The first attempt's outcome `o` is taken as an argument to record
that the count does not depend on whether it ended Ready or Failed. -/
def fetchCallCount (_o : FetchOutcome) (rerenders : Nat) : Nat :=
  effectRunCount hookEffectDeps rerenders * fetchCallsPerEffectRun

/-- A transcription segment as delivered by the SDK's
`useTrackTranscription` (part_000 line 79): carries the transcribed `text`
and a finality flag; the component reads only `.text`. -/
structure TranscriptionSegment where
  text : String
  final : Bool
deriving DecidableEq, Repr

/-- The `UserMessage` component (part_000 lines 157-173): renders its text
bubble when `text` is truthy, `null` when `text` is the empty string. -/
def renderUserMessage (text : String) : Option String :=
  if text = "" then none else some text

/-- The user-message slot of `VoiceAssistantRoom`'s conversation section
(part_000 lines 110-114): when `userTranscriptions.length > 0`, mount
`UserMessage` with `userTranscriptions[userTranscriptions.length - 1].text`;
otherwise render nothing. -/
def renderConversationUserSlot (userTranscriptions : List TranscriptionSegment) :
    Option String :=
  if h : userTranscriptions.length > 0 then
    renderUserMessage
      (userTranscriptions.get ⟨userTranscriptions.length - 1, by omega⟩).text
  else
    none

/-- The spec's description of the same slot, written from its words, for
comparison with `renderConversationUserSlot`: the text of the most recent
transcription segment whose finality flag is set. -/
def specMostRecentFinalText (userTranscriptions : List TranscriptionSegment) :
    Option String :=
  ((userTranscriptions.filter (fun s => s.final)).getLast?).map (fun s => s.text)

/-- `toggleMicrophone` (part_000 lines 81-83): calls
`localParticipant.setMicrophoneEnabled(!isMicrophoneEnabled)`; the SDK call
sets the local participant's microphone-enabled capability to its argument,
so the capability after the call is the negation of the one read. -/
def toggleMicrophone (isMicrophoneEnabled : Bool) : Bool :=
  !isMicrophoneEnabled

/-- Numeric value of a decimal digit character (used to decode the strings
produced by `Nat.repr` when reasoning about generated user ids). -/
def decodeDigit (c : Char) : Nat :=
  c.toNat - 48

/-- Decode a list of decimal digit characters back to the number they
denote, most significant first. -/
def decodeDigits (l : List Char) : Nat :=
  l.foldl (fun a c => 10 * a + decodeDigit c) 0

/-! ## Helper lemmas -/

theorem effectRunCount_hookEffectDeps (rerenders : Nat) :
    effectRunCount hookEffectDeps rerenders = 1 := by
  simp [effectRunCount, hookEffectDeps]

theorem responseOk_true {status : Nat} (h : 200 ≤ status ∧ status ≤ 299) :
    responseOk status = true := by
  simp only [responseOk, Bool.and_eq_true, decide_eq_true_eq]
  omega

theorem responseOk_false {status : Nat} (h : ¬(200 ≤ status ∧ status ≤ 299)) :
    responseOk status = false := by
  simp only [responseOk, Bool.and_eq_false_iff, decide_eq_false_iff_not]
  omega

theorem toDigitsCore_append (n : Nat) :
    ∀ (fuel : Nat) (acc : List Char), n < fuel →
      Nat.toDigitsCore 10 fuel n acc = Nat.toDigitsCore 10 (n + 1) n [] ++ acc := by
  induction n using Nat.strong_induction_on with
  | h n ih =>
    intro fuel acc hfuel
    obtain ⟨f, rfl⟩ : ∃ f, fuel = f + 1 := ⟨fuel - 1, by omega⟩
    by_cases h : n / 10 = 0
    · simp [Nat.toDigitsCore, h]
    · have hlt : n / 10 < n := Nat.div_lt_self (by omega) (by decide)
      rw [show Nat.toDigitsCore 10 (f + 1) n acc =
            Nat.toDigitsCore 10 f (n / 10) (Nat.digitChar (n % 10) :: acc) from by
          simp [Nat.toDigitsCore, h]]
      rw [show Nat.toDigitsCore 10 (n + 1) n [] =
            Nat.toDigitsCore 10 n (n / 10) [Nat.digitChar (n % 10)] from by
          simp [Nat.toDigitsCore, h]]
      rw [ih (n / 10) hlt f _ (by omega), ih (n / 10) hlt n _ (by omega)]
      simp

theorem decodeDigit_digitChar (d : Nat) (h : d < 10) :
    decodeDigit (Nat.digitChar d) = d := by
  interval_cases d <;> rfl

theorem decodeDigits_append (l : List Char) (c : Char) :
    decodeDigits (l ++ [c]) = 10 * decodeDigits l + decodeDigit c := by
  simp [decodeDigits, List.foldl_append]

theorem decodeDigits_toDigits (n : Nat) :
    decodeDigits (Nat.toDigits 10 n) = n := by
  induction n using Nat.strong_induction_on with
  | h n ih =>
    unfold Nat.toDigits
    by_cases h : n / 10 = 0
    · rw [show Nat.toDigitsCore 10 (n + 1) n [] = [Nat.digitChar (n % 10)] from by
        simp [Nat.toDigitsCore, h]]
      rw [show decodeDigits [Nat.digitChar (n % 10)] =
            10 * 0 + decodeDigit (Nat.digitChar (n % 10)) from rfl]
      rw [decodeDigit_digitChar (n % 10) (Nat.mod_lt n (by decide))]
      omega
    · have hlt : n / 10 < n := Nat.div_lt_self (by omega) (by decide)
      rw [show Nat.toDigitsCore 10 (n + 1) n [] =
            Nat.toDigitsCore 10 n (n / 10) [Nat.digitChar (n % 10)] from by
          simp [Nat.toDigitsCore, h]]
      rw [toDigitsCore_append (n / 10) n _ hlt]
      rw [show Nat.toDigitsCore 10 (n / 10 + 1) (n / 10) [] = Nat.toDigits 10 (n / 10) from
        rfl]
      rw [decodeDigits_append, ih (n / 10) hlt,
        decodeDigit_digitChar (n % 10) (Nat.mod_lt n (by decide))]
      omega

theorem Nat_repr_injective {m n : Nat} (h : Nat.repr m = Nat.repr n) : m = n := by
  have hd : Nat.toDigits 10 m = Nat.toDigits 10 n := congrArg String.data h
  have hdec := congrArg decodeDigits hd
  rwa [decodeDigits_toDigits, decodeDigits_toDigits] at hdec

theorem userId_injective {t1 t2 : Nat} (h : userId t1 = userId t2) : t1 = t2 := by
  have hd : "user-".data ++ Nat.toDigits 10 t1 = "user-".data ++ Nat.toDigits 10 t2 :=
    congrArg String.data h
  have hdig : Nat.toDigits 10 t1 = Nat.toDigits 10 t2 := List.append_cancel_left hd
  have hdec := congrArg decodeDigits hdig
  rwa [decodeDigits_toDigits, decodeDigits_toDigits] at hdec

/-! ## Claims -/

/-- C1: for every HTTP response with a 2xx status whose JSON body has fields
`server_url`, `token`, and optionally `room_name`, the hook ends with
`details = {url: server_url, token: token, roomName: room_name}` exactly and
`error = null`. -/
theorem c1_success_field_mapping
    (status : Nat) (server_url token : String) (room_name : Option String)
    (h : 200 ≤ status ∧ status ≤ 299) :
    fetchConnectionDetails (.response status (.parsed server_url token room_name)) =
      { details := some { url := server_url, token := token, roomName := room_name },
        isLoading := false, error := none } := by
  simp [fetchConnectionDetails, tryBlock, responseOk_true h]

theorem c1_success_field_mapping_witness :
    (200 ≤ 200 ∧ 200 ≤ 299) ∧
      fetchConnectionDetails (.response 200 (.parsed "wss://x" "abc" (some "r1"))) =
        { details := some { url := "wss://x", token := "abc", roomName := some "r1" },
          isLoading := false, error := none } :=
  ⟨by decide, c1_success_field_mapping 200 "wss://x" "abc" (some "r1") (by decide)⟩

/-- C2: for every HTTP response with status outside [200, 299], the hook ends
Failed — `details` absent and `error` the non-null string
`HTTP error! status: <code>`, which contains the numeric status code. -/
theorem c2_http_error_embeds_status (status : Nat) (body : BodyOutcome)
    (h : ¬(200 ≤ status ∧ status ≤ 299)) :
    (fetchConnectionDetails (.response status body)).details = none ∧
    (fetchConnectionDetails (.response status body)).error =
      some (httpErrorMessage status) ∧
    ∃ pre, httpErrorMessage status = pre ++ toString status := by
  refine ⟨?_, ?_, "HTTP error! status: ", rfl⟩ <;>
    simp [fetchConnectionDetails, tryBlock, responseOk_false h, caughtMessage]

theorem c2_http_error_embeds_status_witness :
    ¬(200 ≤ 500 ∧ 500 ≤ 299) ∧
      (fetchConnectionDetails (.response 500 (.parsed "u" "t" none))).error =
        some (httpErrorMessage 500) :=
  ⟨by decide, (c2_http_error_embeds_status 500 (.parsed "u" "t" none) (by decide)).2.1⟩

/-- C3 (amended): every network-level or JSON-parse exception leaves the hook
Failed — `details` absent and `error` the non-null string produced by the
catch block: the thrown `Error`'s own message when the value is an `Error`
instance, otherwise the fallback `Unknown error`; this string is empty
exactly when the thrown value is an `Error` whose own message is empty. -/
theorem c3_exception_message (exn : Thrown) (status : Nat)
    (hok : 200 ≤ status ∧ status ≤ 299) :
    ((fetchConnectionDetails (.networkError exn)).details = none ∧
      (fetchConnectionDetails (.networkError exn)).error = some (caughtMessage exn)) ∧
    ((fetchConnectionDetails (.response status (.parseError exn))).details = none ∧
      (fetchConnectionDetails (.response status (.parseError exn))).error =
        some (caughtMessage exn)) ∧
    (caughtMessage exn = "" ↔ exn = .error "") := by
  refine ⟨⟨?_, ?_⟩, ⟨?_, ?_⟩, ?_⟩ <;>
    cases exn <;>
    simp [fetchConnectionDetails, tryBlock, responseOk_true hok, caughtMessage]

theorem c3_exception_message_witness :
    (200 ≤ 200 ∧ 200 ≤ 299) ∧
      (fetchConnectionDetails (.networkError .nonError)).error =
        some (caughtMessage .nonError) :=
  ⟨by decide, (c3_exception_message .nonError 200 (by decide)).1.2⟩

/-- C3 counterexample to the claim as stated: a thrown `Error` whose own
message is the empty string ends the hook Failed with the empty message, so
the surfaced message is not always non-empty. -/
theorem c3_empty_message_counterexample :
    (fetchConnectionDetails (.networkError (.error ""))).error = some "" ∧
    "".length = 0 :=
  ⟨rfl, rfl⟩

/-- C4: whenever the fetch ends Failed (error non-null), details are absent,
`VoiceAssistantScreen` renders the loading placeholder — the very same view
as the initial loading state, there being no distinct failure view — and the
mount never issues another fetch (no retry path), for any number of
re-renders. -/
theorem c4_failed_renders_loading (o : FetchOutcome)
    (hfail : (fetchConnectionDetails o).error ≠ none) :
    (fetchConnectionDetails o).details = none ∧
    renderVoiceAssistantScreen (fetchConnectionDetails o) = .loading ∧
    renderVoiceAssistantScreen (fetchConnectionDetails o) =
      renderVoiceAssistantScreen initialHookState ∧
    ∀ rerenders, fetchCallCount o rerenders = 1 := by
  obtain ⟨exn, hexn⟩ : ∃ exn, tryBlock o = .error exn := by
    cases h : tryBlock o with
    | ok d => simp [fetchConnectionDetails, h] at hfail
    | error exn => exact ⟨exn, rfl⟩
  refine ⟨?_, ?_, ?_, fun rerenders => ?_⟩ <;>
    simp [fetchConnectionDetails, hexn, renderVoiceAssistantScreen, initialHookState,
      fetchCallCount, effectRunCount_hookEffectDeps, fetchCallsPerEffectRun]

theorem c4_failed_renders_loading_witness :
    (fetchConnectionDetails (.response 500 (.parsed "u" "t" none))).error ≠ none ∧
      renderVoiceAssistantScreen
        (fetchConnectionDetails (.response 500 (.parsed "u" "t" none))) = .loading :=
  ⟨by decide,
    (c4_failed_renders_loading (.response 500 (.parsed "u" "t" none)) (by decide)).2.1⟩

/-- C5 (amended): the generated user ids of two invocations coincide exactly
when the observed `Date.now()` timestamps coincide — so generation is not
constant (distinct timestamps give distinct ids), but two invocations within
the same millisecond produce equal ids. -/
theorem c5_user_id_generation (t1 t2 : Nat) :
    (userId t1 = userId t2 ↔ t1 = t2) ∧ userId t1 ≠ userId (t1 + 1) := by
  constructor
  · exact ⟨fun h => userId_injective h, fun h => by rw [h]⟩
  · intro h
    have := userId_injective h
    omega

/-- C5 counterexample to the claim as stated: two distinct invocations (the
first and the second in one run) that observe the same millisecond timestamp
send equal `user_id` values. -/
theorem c5_same_millisecond_counterexample :
    (0 : Nat) ≠ 1 ∧
      userId ((fun _ : Nat => 1696000000000) 0) =
        userId ((fun _ : Nat => 1696000000000) 1) :=
  ⟨by decide, rfl⟩

/-- C7: activating the microphone toggle from enabled-state `b` sets the
capability to `!b`, and activating it twice returns the capability to `b`
(alternating states). -/
theorem c7_toggle_involution (b : Bool) :
    toggleMicrophone b = !b ∧ toggleMicrophone (toggleMicrophone b) = b := by
  cases b <;> simp [toggleMicrophone]

/-- C8: per mount the token-fetch workflow executes exactly once — the sole
effect has a constant empty dependency array, so it runs once regardless of
re-render count, each run issues one fetch, and the count is independent of
the first attempt's outcome. -/
theorem c8_single_shot (o : FetchOutcome) (rerenders : Nat) :
    fetchCallCount o rerenders = 1 ∧
    effectRunCount hookEffectDeps rerenders = 1 ∧
    fetchCallsPerEffectRun = 1 := by
  refine ⟨?_, effectRunCount_hookEffectDeps rerenders, rfl⟩
  simp [fetchCallCount, effectRunCount_hookEffectDeps, fetchCallsPerEffectRun]

/-- C9: no outcome of the fetch workflow lets an exception escape the hook:
the state always settles (`isLoading = false`), every exception raised in the
try block is surfaced only as the string `error` field, and `error` is absent
exactly when the try block completed normally. -/
theorem c9_no_exception_escapes (o : FetchOutcome) :
    (fetchConnectionDetails o).isLoading = false ∧
    (∀ exn, tryBlock o = .error exn →
      fetchConnectionDetails o =
        { details := none, isLoading := false, error := some (caughtMessage exn) }) ∧
    ((fetchConnectionDetails o).error = none ↔ ∃ d, tryBlock o = .ok d) := by
  cases h : tryBlock o <;> simp [fetchConnectionDetails, h]

theorem c9_no_exception_escapes_witness :
    fetchConnectionDetails (.networkError .nonError) =
      { details := none, isLoading := false, error := some (caughtMessage .nonError) } :=
  (c9_no_exception_escapes (.networkError .nonError)).2.1 .nonError rfl

/-- C10: after every completed fetch workflow `isLoading` is false and exactly
one outcome field is set: on success `details` is defined and `error` null,
on failure `details` is absent and `error` a non-null string; never both. -/
theorem c10_exclusive_outcome (o : FetchOutcome) :
    (fetchConnectionDetails o).isLoading = false ∧
    ((∃ d, (fetchConnectionDetails o).details = some d) ∧
        (fetchConnectionDetails o).error = none ∨
      (fetchConnectionDetails o).details = none ∧
        ∃ m, (fetchConnectionDetails o).error = some m) ∧
    ¬((fetchConnectionDetails o).details ≠ none ∧
        (fetchConnectionDetails o).error ≠ none) := by
  cases h : tryBlock o <;> simp [fetchConnectionDetails, h]

theorem c10_exclusive_outcome_witness :
    (fetchConnectionDetails (.networkError .nonError)).isLoading = false :=
  (c10_exclusive_outcome (.networkError .nonError)).1

/-- C6 (amended): the conversation view renders the most recent transcription
segment's text — regardless of the segment's finality flag — as the user
message whenever that text is non-empty; it renders no user message when
there are zero segments or the most recent segment's text is empty. -/
theorem c6_user_slot_renders_last_segment (segs : List TranscriptionSegment) :
    renderConversationUserSlot segs =
      segs.getLast?.bind (fun seg => renderUserMessage seg.text) := by
  unfold renderConversationUserSlot
  split
  · next h =>
    have h1 : segs.getLast? = some segs[segs.length - 1] := by
      rw [List.getLast?_eq_getElem?, List.getElem?_eq_getElem (by omega)]
    rw [h1]
    rfl
  · next h =>
    obtain rfl : segs = [] := List.eq_nil_of_length_eq_zero (by omega)
    rfl

/-- C6 counterexample to the claim as stated: when the most recent segment is
not final, the code still renders its text, while the most recent final
segment's text (the spec's reading) is a different, earlier one. -/
theorem c6_nonfinal_segment_counterexample :
    renderConversationUserSlot
        [{ text := "a", final := true }, { text := "b", final := false }] = some "b" ∧
    specMostRecentFinalText
        [{ text := "a", final := true }, { text := "b", final := false }] = some "a" ∧
    renderConversationUserSlot
        [{ text := "a", final := true }, { text := "b", final := false }] ≠
      specMostRecentFinalText
        [{ text := "a", final := true }, { text := "b", final := false }] := by
  refine ⟨rfl, rfl, ?_⟩
  decide
